import Mathlib

/-!
Verification development for the outbound request forwarding gateway of the
Aetherium repository (src/app/api/proxy/route.ts).

The gateway is embedded shallowly: the POST handler becomes the function
`forward`, platform services (URL parsing, DNS lookups, the fetch transport,
the node https transport, the DNS_MAPPINGS environment variable and the
/etc/hosts file) become an explicit `Env` record of oracles, and the network
activity performed by a call is recorded as a trace of `Event`s returned
alongside the gateway result.  JavaScript string operations used by the source
(split, trim, replace, toUpperCase, startsWith, includes) are modelled by
executable functions over the character list of a string so that every
concrete run of `forward` can be evaluated by the kernel.
-/

namespace Aetherium

/-! ### String helpers modelling the JavaScript string methods -/

/-- Build a string from a character list. -/
def chStr (l : List Char) : String := String.mk l

/-- First occurrence of `pat` inside a character list: returns the characters
before the occurrence and the characters after it (leftmost match, as for the
JavaScript `indexOf`-based operations). -/
def firstOccur (pat : List Char) : List Char → Option (List Char × List Char)
  | [] => if pat.isPrefixOf ([] : List Char) then some ([], []) else none
  | c :: rest =>
    if pat.isPrefixOf (c :: rest) then some ([], (c :: rest).drop pat.length)
    else
      match firstOccur pat rest with
      | some (b, a) => some (c :: b, a)
      | none => none

/-- Fuel-driven splitting worker: each step removes at least one character
when `pat` is nonempty, so `s.length` fuel suffices. -/
def splitFuel (pat : List Char) : Nat → List Char → List (List Char)
  | 0, s => [s]
  | Nat.succ f, s =>
    match firstOccur pat s with
    | none => [s]
    | some (b, a) => b :: splitFuel pat f a

/-- Model of the JavaScript `String.prototype.split` with a string separator. -/
def sSplitOn (s sep : String) : List String :=
  if sep.data = [] then [s]
  else (splitFuel sep.data s.data.length s.data).map chStr

/-- Model of the JavaScript `String.prototype.trim`. -/
def sTrim (s : String) : String :=
  chStr (((s.data.dropWhile Char.isWhitespace).reverse.dropWhile Char.isWhitespace).reverse)

/-- Model of the JavaScript `String.prototype.toUpperCase` (ASCII). -/
def sToUpper (s : String) : String := chStr (s.data.map Char.toUpper)

/-- Model of the JavaScript `String.prototype.toLowerCase` (ASCII). -/
def sToLower (s : String) : String := chStr (s.data.map Char.toLower)

/-- Model of the JavaScript `String.prototype.startsWith`. -/
def sStartsWith (s p : String) : Bool := p.data.isPrefixOf s.data

/-- Model of the JavaScript `String.prototype.includes`. -/
def sIncludes (s sub : String) : Bool :=
  if sub.data = [] then true else (firstOccur sub.data s.data).isSome

/-- Model of the JavaScript `String.prototype.replace` with a plain string
pattern: only the FIRST occurrence of `pat` is replaced (replacement-pattern
directives such as a dollar sign in `rep` are not modelled; no input used
below contains them). -/
def sReplaceFirst (s pat rep : String) : String :=
  if pat.data = [] then rep ++ s
  else
    match firstOccur pat.data s.data with
    | none => s
    | some (b, a) => chStr b ++ rep ++ chStr a

/-- Split a string into its maximal runs of non-whitespace characters;
agrees with the JavaScript regular-expression split on whitespace for
already-trimmed strings (the only way the source uses it). -/
def tokensAux : List Char → List Char → List (List Char)
  | [], acc => if acc = [] then [] else [acc.reverse]
  | c :: rest, acc =>
    if Char.isWhitespace c then
      if acc = [] then tokensAux rest [] else acc.reverse :: tokensAux rest []
    else tokensAux rest (c :: acc)

/-- Whitespace tokenisation of a string (see `tokensAux`). -/
def wsTokens (s : String) : List String := (tokensAux s.data []).map chStr

/-- A run of `n` spaces, used by the JSON pretty printer. -/
def indentStr (n : Nat) : String := chStr (List.replicate n ' ')

/-! ### JSON values and the two serialisations used by the source

`JSON.stringify(v)` (compact, for outbound request bodies) and
`JSON.stringify(v, null, 2)` (two-space pretty printing, for normalising
JSON response bodies). -/

mutual

/-- JSON values.  Numbers are modelled as integers, which covers every value
appearing in the repository and its specification scenarios.  Arrays and
objects use the mutual list types `JsonArr` and `JsonObj` so that the
serialisers below are structurally recursive (and hence evaluable by the
kernel). -/
inductive JsonVal where
  | null : JsonVal
  | bool (b : Bool) : JsonVal
  | num (n : Int) : JsonVal
  | str (s : String) : JsonVal
  | arr (xs : JsonArr) : JsonVal
  | obj (fs : JsonObj) : JsonVal

/-- A list of JSON values (array elements). -/
inductive JsonArr where
  | nil : JsonArr
  | cons (hd : JsonVal) (tl : JsonArr) : JsonArr

/-- A list of JSON object fields (key/value pairs, in insertion order). -/
inductive JsonObj where
  | nil : JsonObj
  | cons (key : String) (val : JsonVal) (tl : JsonObj) : JsonObj

end

/-- Escaping of one character inside a JSON string literal. -/
def escapeJsonChar (c : Char) : String :=
  if c = '"' then "\\\""
  else if c = '\\' then "\\\\"
  else if c = '\n' then "\\n"
  else if c = '\t' then "\\t"
  else if c = '\r' then "\\r"
  else String.singleton c

/-- Escaping of a JSON string body. -/
def escapeJson (s : String) : String :=
  chStr ((s.data.map (fun c => (escapeJsonChar c).data)).flatten)

mutual

/-- `JSON.stringify(v, null, 2)` at the given current indentation. -/
def jstr (ind : Nat) : JsonVal → String
  | .null => "null"
  | .bool b => cond b "true" "false"
  | .num n => toString n
  | .str s => "\"" ++ escapeJson s ++ "\""
  | .arr .nil => "[]"
  | .arr xs =>
      "[\n" ++ jstrArr (ind + 2) xs ++ "\n" ++ indentStr ind ++ "]"
  | .obj .nil => "\x7b\x7d"
  | .obj fs =>
      "\x7b\n" ++ jstrObj (ind + 2) fs ++ "\n" ++ indentStr ind ++ "\x7d"

/-- Pretty-printed array items, comma/newline separated. -/
def jstrArr (ind : Nat) : JsonArr → String
  | .nil => ""
  | .cons x .nil => indentStr ind ++ jstr ind x
  | .cons x ys => indentStr ind ++ jstr ind x ++ ",\n" ++ jstrArr ind ys

/-- Pretty-printed object fields, comma/newline separated. -/
def jstrObj (ind : Nat) : JsonObj → String
  | .nil => ""
  | .cons k v .nil => indentStr ind ++ "\"" ++ escapeJson k ++ "\": " ++ jstr ind v
  | .cons k v gs =>
      indentStr ind ++ "\"" ++ escapeJson k ++ "\": " ++ jstr ind v ++ ",\n" ++
        jstrObj ind gs

end

mutual

/-- `JSON.stringify(v)` (compact form, no whitespace). -/
def jstrC : JsonVal → String
  | .null => "null"
  | .bool b => cond b "true" "false"
  | .num n => toString n
  | .str s => "\"" ++ escapeJson s ++ "\""
  | .arr xs => "[" ++ jstrCArr xs ++ "]"
  | .obj fs => "\x7b" ++ jstrCObj fs ++ "\x7d"

/-- Compact array items. -/
def jstrCArr : JsonArr → String
  | .nil => ""
  | .cons x .nil => jstrC x
  | .cons x ys => jstrC x ++ "," ++ jstrCArr ys

/-- Compact object fields. -/
def jstrCObj : JsonObj → String
  | .nil => ""
  | .cons k v .nil => "\"" ++ escapeJson k ++ "\":" ++ jstrC v
  | .cons k v gs => "\"" ++ escapeJson k ++ "\":" ++ jstrC v ++ "," ++ jstrCObj gs

end

/-! ### JavaScript-object header maps

Caller headers and outbound request headers are JavaScript objects: keys are
case sensitive, assigning an existing key overwrites its value in place,
assigning a fresh key appends it, and a spread merges by repeated assignment. -/

/-- Property read on a JavaScript object (exact, case-sensitive key). -/
def jsGet (o : List (String × String)) (k : String) : Option String :=
  (o.find? (fun p => p.1 = k)).map (fun p => p.2)

/-- Property assignment on a JavaScript object: overwrite in place if the key
exists, append otherwise. -/
def jsSet (o : List (String × String)) (k v : String) : List (String × String) :=
  if (o.find? (fun p => p.1 = k)).isSome then
    o.map (fun p => if p.1 = k then (k, v) else p)
  else o ++ [(k, v)]

/-- Object-spread merge: `\x7b ...base, ...ext \x7d` assigns every entry of
`ext` over `base` in order. -/
def jsMerge (base ext : List (String × String)) : List (String × String) :=
  ext.foldl (fun acc p => jsSet acc p.1 p.2) base

/-- JavaScript truthiness of an optional string (absent, null, undefined and
the empty string are falsy). -/
def jsTruthyS : Option String → Bool
  | none => false
  | some s => !(s == "")

/-- Case-insensitive header lookup, modelling `Headers.prototype.get`. -/
def headersGetCI (hs : List (String × String)) (name : String) : Option String :=
  (hs.find? (fun p => sToLower p.1 = sToLower name)).map (fun p => p.2)

/-! ### Data model of the gateway (src/app/api/proxy/route.ts) -/

/-- The body field of an incoming request description, after JSON decoding:
a string, a structured (object/array) payload, or another primitive with the
given JavaScript truthiness (numbers, booleans; `null` is represented by an
absent body, which the handler treats identically since `null` is falsy). -/
inductive BodyVal where
  | str (s : String) : BodyVal
  | obj (j : JsonVal) : BodyVal
  | prim (truthy : Bool) : BodyVal

/-- JavaScript truthiness of the optional request body. -/
def bodyTruthy : Option BodyVal → Bool
  | none => false
  | some (.str s) => !(s == "")
  | some (.obj _) => true
  | some (.prim t) => t

/-- The request description destructured from the incoming JSON payload on
line 130 of route.ts: `\x7b method, url, headers, body, insecureSSL \x7d`.
The `caCertificate` field is part of the repository data model (it is stored
by the persistence layer); it is carried here so that theorems can speak
about how the gateway treats it. -/
structure Req where
  method : String
  url : String
  headers : List (String × String)
  body : Option BodyVal
  insecureSSL : Bool
  caCertificate : Option String

/-- The result of `new URL(u)`; only the `hostname` component is consumed by
the handler in ways the claims depend on. -/
structure UrlParts where
  hostname : String
deriving DecidableEq

/-- A transport-level response, as observed through the fetch `Response`
interface: status, status text, headers (as iterated by `forEach`), the body
text, the result of attempting `response.json()` on the body (`none` when the
body is not valid JSON), the final URL and the redirect flag.  A fetch body
is a one-shot stream: the handler may consume it once; `parsedJson = none`
means `response.json()` rejects after that single consumption. -/
structure TransportResponse where
  status : Nat
  statusText : String
  headers : List (String × String)
  textBody : String
  parsedJson : Option JsonVal
  url : String
  redirected : Bool

/-- Outcome of a normal `fetch` call: a response, a rejection carrying an
`Error` with the given `name` and `message` (AbortError, TypeError, network
faults...), or a rejection with a non-`Error` value. -/
inductive FetchResult where
  | resp (r : TransportResponse) : FetchResult
  | netError (name msg : String) : FetchResult
  | thrownNonError : FetchResult

/-- A server response on the node `https`/`http` client path of
`makeRequest`: raw status code and message (0 and the empty string stand for
absent values, which are falsy), headers, accumulated body data, and the
result of attempting to parse that data as JSON. -/
structure NodeRes where
  statusCode : Nat
  statusMessage : String
  headers : List (String × String)
  data : String
  parsedJson : Option JsonVal

/-- Outcome of the node client request: a response or an `error` event with
the given message. -/
inductive NodeResult where
  | res (r : NodeRes) : NodeResult
  | reqError (msg : String) : NodeResult

/-- The platform environment of one gateway invocation: URL parsing, the
three DNS resolution oracles (dual-stack `dns.lookup`, IPv4-only retry, and
the `dns/promises` fallback; `true` means the step resolves), the
`DNS_MAPPINGS` environment variable, the readable content of /etc/hosts
(`none` when reading fails), whether the 30-second deadline elapses before
the outbound call completes, the outcome of a fetch transport call, the
outcome of a node-client call, and the message of the `TypeError` raised by
re-reading an already-consumed response body. -/
structure Env where
  urlParse : String → Option UrlParts
  dnsDual : String → Bool
  dnsV4 : String → Bool
  dnsFallback : String → Bool
  dnsMappings : Option String
  etcHosts : Option String
  timedOut : Bool
  fetchResult : FetchResult
  nodeResult : NodeResult
  bodyUnusableMsg : String

/-- The canonical response shape the gateway returns for every completed
call, locally generated failures included. -/
structure NormalizedResponse where
  status : Nat
  statusText : String
  headers : List (String × String)
  body : String
  url : String
  redirected : Bool
deriving DecidableEq, Repr

/-- What the POST handler replies with: a 400-class validation error
(`\x7b error: msg \x7d`), a normalized response delivered with HTTP 200, or
the status-0 "Server Error" normalized response delivered with HTTP 500. -/
inductive GatewayResult where
  | badRequest (msg : String) : GatewayResult
  | normal (resp : NormalizedResponse) : GatewayResult
  | serverError (resp : NormalizedResponse) : GatewayResult
deriving DecidableEq, Repr

/-- Network activity performed by an invocation: a hostname resolution
attempt (step 1 = dual-stack `dns.lookup`, 2 = IPv4-only retry, 3 = the
`dns/promises` fallback), or an outbound transport call with the dialed URL,
method, headers and body it carries (`viaNodeTls` marks the insecure node
client path). -/
inductive Event where
  | dnsAttempt (hostname : String) (step : Nat) : Event
  | outbound (url : String) (method : String) (headers : List (String × String))
      (body : Option String) (viaNodeTls : Bool) : Event
deriving DecidableEq, Repr

/-! ### The gateway functions, translated from src/app/api/proxy/route.ts -/

/-- Line 234: the enumerated HTTP methods. -/
def validMethods : List String :=
  ["GET", "POST", "PUT", "DELETE", "PATCH", "HEAD", "OPTIONS"]

/-- A 1-to-3-digit decimal group. -/
def isDigits13 (s : String) : Bool :=
  decide (1 ≤ s.length) && decide (s.length ≤ 3) && s.data.all Char.isDigit

/-- The IPv4-literal test of line 167: four dot-separated 1-to-3-digit
groups. -/
def isIPv4Literal (s : String) : Bool :=
  match sSplitOn s "." with
  | [a, b, c, d] => isDigits13 a && isDigits13 b && isDigits13 c && isDigits13 d
  | _ => false

/-- A 0-to-4-digit hexadecimal group. -/
def isHex04 (s : String) : Bool :=
  decide (s.length ≤ 4) &&
    s.data.all (fun c =>
      c.isDigit || decide ('a' ≤ c ∧ c ≤ 'f') || decide ('A' ≤ c ∧ c ≤ 'F'))

/-- The IPv6-literal test of line 167: between 2 and 7 colon-terminated 0-4
digit hexadecimal groups followed by one more group, i.e. 3 to 8
colon-separated groups. -/
def isIPv6Literal (s : String) : Bool :=
  let groups := sSplitOn s ":"
  decide (3 ≤ groups.length) && decide (groups.length ≤ 8) && groups.all isHex04

/-- Lines 86-92 of `getEnvDnsMapping`: walk the comma-separated entries; at
the first entry whose `=`-split, trimmed head equals the hostname, return its
second component (absent when the entry has no `=`, matching the JavaScript
`undefined`). -/
def envEntryLookup (hostname : String) : List String → Option String
  | [] => none
  | m :: rest =>
    let parts := (sSplitOn m "=").map sTrim
    if parts.headD "" = hostname then parts[1]?
    else envEntryLookup hostname rest

/-- Lines 81-97: consult the `DNS_MAPPINGS` environment variable (an unset or
empty variable is falsy and yields no mapping). -/
def getEnvDnsMapping (dnsMappings : Option String) (hostname : String) : Option String :=
  match dnsMappings with
  | none => none
  | some s => if s = "" then none else envEntryLookup hostname (sSplitOn s ",")

/-- Lines 104-119 of `checkEtcHosts`: scan the hosts file lines; skip blank
lines and `#` comments; on the first line with at least two whitespace-split
fields whose tail contains the hostname, return the first field. -/
def hostsLineLookup (hostname : String) : List String → Option String
  | [] => none
  | line :: rest =>
    let trimmedLine := sTrim line
    if trimmedLine = "" || sStartsWith trimmedLine "#" then
      hostsLineLookup hostname rest
    else
      let parts := wsTokens trimmedLine
      if decide (2 ≤ parts.length) && (parts.drop 1).contains hostname then
        some (parts.headD "")
      else hostsLineLookup hostname rest

/-- Lines 100-124: read /etc/hosts (`none` content models a read failure,
which the catch turns into no entry) and look the hostname up. -/
def checkEtcHosts (content : Option String) (hostname : String) : Option String :=
  match content with
  | none => none
  | some txt => hostsLineLookup hostname (sSplitOn txt "\n")

/-- Lines 165-231: the host resolution stage.  Returns the URL to dial, the
`customResolution` flag, and the DNS attempts performed.  A literal IP skips
resolution entirely; otherwise the three system resolution steps are tried in
order and, only when all three fail, the environment mapping (first) and the
hosts file (second) are consulted; a hit substitutes the mapped address for
the FIRST occurrence of the hostname in the URL string (`url.replace`). -/
def resolveHost (env : Env) (url hostname : String) : String × Bool × List Event :=
  if isIPv4Literal hostname || isIPv6Literal hostname then (url, false, [])
  else if env.dnsDual hostname then (url, false, [.dnsAttempt hostname 1])
  else if env.dnsV4 hostname then
    (url, false, [.dnsAttempt hostname 1, .dnsAttempt hostname 2])
  else if env.dnsFallback hostname then
    (url, false, [.dnsAttempt hostname 1, .dnsAttempt hostname 2, .dnsAttempt hostname 3])
  else
    let allDns : List Event :=
      [.dnsAttempt hostname 1, .dnsAttempt hostname 2, .dnsAttempt hostname 3]
    let envMapping := getEnvDnsMapping env.dnsMappings hostname
    let hostsEntry := checkEtcHosts env.etcHosts hostname
    if jsTruthyS envMapping then
      (sReplaceFirst url hostname (envMapping.getD ""), true, allDns)
    else if jsTruthyS hostsEntry then
      (sReplaceFirst url hostname (hostsEntry.getD ""), true, allDns)
    else (url, false, allDns)

/-- Lines 242-273: build the outbound headers and body.  Defaults merge a
`User-Agent` under the caller headers; custom resolution adds a `Host` header
with the original hostname; a truthy body on a non-GET/HEAD method is passed
through as a string, or JSON-stringified when it is an object, in which case
`Content-Type: application/json` is auto-set unless one of the two exact
spellings `Content-Type` / `content-type` is already present and truthy. -/
def buildHeadersBody (req : Req) (hostname : String) (customResolution : Bool) :
    List (String × String) × Option String :=
  let rh0 := jsMerge [("User-Agent", "HTTP-Client-Server/1.0")] req.headers
  let rh1 := if customResolution then jsSet rh0 "Host" hostname else rh0
  if bodyTruthy req.body && !((["GET", "HEAD"] : List String).contains (sToUpper req.method)) then
    match req.body with
    | some (.str s) => (rh1, some s)
    | some (.obj j) =>
      let rh2 :=
        if !jsTruthyS (jsGet rh1 "Content-Type") && !jsTruthyS (jsGet rh1 "content-type") then
          jsSet rh1 "Content-Type" "application/json"
        else rh1
      (rh2, some (jstrC j))
    | _ => (rh1, none)
  else (rh1, none)

/-- Lines 392-399: the timeout response (status 0, the original url). -/
def timeoutResponse (origUrl : String) : NormalizedResponse :=
  { status := 0, statusText := "Request Timeout", headers := []
    body := "Request timed out after 30 seconds", url := origUrl, redirected := false }

/-- Lines 405-412: the network error response (status 0, the original url,
body carrying the underlying message). -/
def networkErrorResponse (origUrl msg : String) : NormalizedResponse :=
  { status := 0, statusText := "Network Error", headers := []
    body := "Network error: " ++ msg, url := origUrl, redirected := false }

/-- Lines 435-445: the catch-all response for a non-`Error` fault (HTTP
500). -/
def serverErrorResponse : NormalizedResponse :=
  { status := 0, statusText := "Server Error", headers := []
    body := "Unknown server error occurred", url := "", redirected := false }

/-- Lines 331-378 plus the enclosing catch: normalise a received transport
response.  Headers are flattened; when the content type includes
`application/json` the handler calls `response.json()`: on success the body
is pretty-printed, but on failure the body stream is already consumed, so the
fallback `response.text()` raises a `TypeError` (body unusable) that the
surrounding catch converts into a status-0 Network Error response. -/
def normalizeTransport (env : Env) (origUrl : String) (r : TransportResponse) :
    GatewayResult :=
  let contentType := (headersGetCI r.headers "content-type").getD ""
  if sIncludes contentType "application/json" then
    match r.parsedJson with
    | some j =>
      .normal { status := r.status, statusText := r.statusText, headers := r.headers
                body := jstr 0 j, url := r.url, redirected := r.redirected }
    | none => .normal (networkErrorResponse origUrl env.bodyUnusableMsg)
  else
    .normal { status := r.status, statusText := r.statusText, headers := r.headers
              body := r.textBody, url := r.url, redirected := r.redirected }

/-- Lines 12-78 (`makeRequest`) together with lines 277-419: perform the
outbound call under the 30-second abort deadline and normalise its outcome.
Without insecure TLS, or for a dialed URL that does not start with
`https://`, the normal fetch path runs: an elapsed deadline aborts the fetch
with an `AbortError`, which the catch maps to the timeout response; any other
`Error` rejection becomes a Network Error response; a non-`Error` rejection
is rethrown to the outer handler.  Otherwise the node client path runs: it
parses the dialed URL (a parse failure rejects the promise and surfaces as a
Network Error), issues the request, and on abort rejects with a plain
`Error("Request aborted")` whose name is not `AbortError`; a received node
response is wrapped into a `Response` whose url is the dialed URL and whose
redirected flag is `false`. -/
def executeRequest (env : Env) (origUrl resolvedUrl methodU : String)
    (hdrs : List (String × String)) (rbody : Option String) (insecureSSL : Bool) :
    GatewayResult × List Event :=
  if !insecureSSL || !sStartsWith resolvedUrl "https://" then
    let ev : List Event := [.outbound resolvedUrl methodU hdrs rbody false]
    if env.timedOut then (.normal (timeoutResponse origUrl), ev)
    else
      match env.fetchResult with
      | .resp r => (normalizeTransport env origUrl r, ev)
      | .netError name msg =>
        if name = "AbortError" then (.normal (timeoutResponse origUrl), ev)
        else (.normal (networkErrorResponse origUrl msg), ev)
      | .thrownNonError => (.serverError serverErrorResponse, ev)
  else
    match env.urlParse resolvedUrl with
    | none => (.normal (networkErrorResponse origUrl "Invalid URL"), [])
    | some _ =>
      let ev : List Event := [.outbound resolvedUrl methodU hdrs rbody true]
      if env.timedOut then (.normal (networkErrorResponse origUrl "Request aborted"), ev)
      else
        match env.nodeResult with
        | .reqError msg => (.normal (networkErrorResponse origUrl msg), ev)
        | .res r =>
          let tr : TransportResponse :=
            { status := if r.statusCode = 0 then 200 else r.statusCode
              statusText := if r.statusMessage = "" then "OK" else r.statusMessage
              headers := r.headers.map (fun p => (sToLower p.1, p.2))
              textBody := r.data
              parsedJson := r.parsedJson
              url := resolvedUrl
              redirected := false }
          (normalizeTransport env origUrl tr, ev)

/-- The POST handler of route.ts (the gateway operation `forward`), composed
exactly in source order: required-field checks, URL parsing, host resolution,
method validation, header/body construction, and the transport call.  The
second component is the trace of network activity the invocation performs. -/
def forward (env : Env) (req : Req) : GatewayResult × List Event :=
  if req.url = "" then (.badRequest "URL is required", [])
  else if req.method = "" then (.badRequest "HTTP method is required", [])
  else
    match env.urlParse req.url with
    | none => (.badRequest "Invalid URL format", [])
    | some parsedUrl =>
      let r3 := resolveHost env req.url parsedUrl.hostname
      if validMethods.contains (sToUpper req.method) then
        let hb := buildHeadersBody req parsedUrl.hostname r3.2.1
        let er := executeRequest env req.url r3.1 (sToUpper req.method) hb.1 hb.2
          req.insecureSSL
        (er.1, r3.2.2 ++ er.2)
      else (.badRequest "Invalid HTTP method", r3.2.2)

/-! ### Helper lemmas -/

/-- Unfolding a property read over a cons cell. -/
theorem jsGet_cons (p : String × String) (o : List (String × String)) (k2 : String) :
    jsGet (p :: o) k2 = if p.1 = k2 then some p.2 else jsGet o k2 := by
  unfold jsGet
  rw [List.find?_cons]
  by_cases hp : p.1 = k2
  · simp [hp]
  · simp [hp]

/-- Reading key `k` after the in-place overwrite of `k` yields the new
value whenever an entry with key `k` exists. -/
theorem jsGet_map_overwrite (k v : String) :
    ∀ o : List (String × String), (o.find? (fun p => p.1 = k)).isSome = true →
      jsGet (o.map (fun p => if p.1 = k then (k, v) else p)) k = some v
  | [], hex => Bool.noConfusion hex
  | p :: o, hex => by
    by_cases hp : p.1 = k
    · simp [List.map_cons, if_pos hp, jsGet_cons]
    · rw [List.find?_cons] at hex
      simp only [hp, decide_False] at hex
      simp only [List.map_cons, if_neg hp, jsGet_cons, hp, if_false]
      exact jsGet_map_overwrite k v o hex

/-- Reading key `k` from a list with no `k` entry after appending `(k, v)`
yields the appended value. -/
theorem jsGet_append_fresh (k v : String) :
    ∀ o : List (String × String), (o.find? (fun p => p.1 = k)).isSome = false →
      jsGet (o ++ [(k, v)]) k = some v
  | [], _ => by simp [jsGet_cons]
  | p :: o, hex => by
    rw [List.find?_cons] at hex
    by_cases hp : p.1 = k
    · simp [hp] at hex
    · simp only [hp, decide_False] at hex
      simp only [List.cons_append, jsGet_cons, hp, if_false]
      exact jsGet_append_fresh k v o hex

/-- Reading back the key just assigned yields the assigned value. -/
theorem jsGet_jsSet_self (o : List (String × String)) (k v : String) :
    jsGet (jsSet o k v) k = some v := by
  unfold jsSet
  split
  · exact jsGet_map_overwrite k v o (by assumption)
  · rename_i hex
    exact jsGet_append_fresh k v o (Bool.eq_false_iff.mpr hex)

/-- The in-place overwrite of key `k` leaves reads of a different key `k2`
unchanged. -/
theorem jsGet_map_overwrite_ne (k k2 v : String) (h : k ≠ k2) :
    ∀ o : List (String × String),
      jsGet (o.map (fun p => if p.1 = k then (k, v) else p)) k2 = jsGet o k2
  | [] => rfl
  | p :: o => by
    by_cases hp : p.1 = k
    · have hpk2 : ¬(p.1 = k2) := by rw [hp]; exact h
      simp only [List.map_cons, if_pos hp, jsGet_cons, h, if_false, hpk2]
      exact jsGet_map_overwrite_ne k k2 v h o
    · simp only [List.map_cons, if_neg hp, jsGet_cons]
      by_cases hp2 : p.1 = k2
      · simp [hp2]
      · simp only [hp2, if_false]
        exact jsGet_map_overwrite_ne k k2 v h o

/-- Appending a fresh `(k, v)` entry leaves reads of a different key `k2`
unchanged. -/
theorem jsGet_append_ne (k k2 v : String) (h : k ≠ k2) :
    ∀ o : List (String × String), jsGet (o ++ [(k, v)]) k2 = jsGet o k2
  | [] => by simp [jsGet_cons, jsGet, h]
  | p :: o => by
    by_cases hp2 : p.1 = k2
    · simp [List.cons_append, jsGet_cons, hp2]
    · simp only [List.cons_append, jsGet_cons, hp2, if_false]
      exact jsGet_append_ne k k2 v h o

/-- Assigning one key leaves reads of a different key unchanged. -/
theorem jsGet_jsSet_ne (o : List (String × String)) (k k2 v : String) (h : k ≠ k2) :
    jsGet (jsSet o k v) k2 = jsGet o k2 := by
  unfold jsSet
  split
  · exact jsGet_map_overwrite_ne k k2 v h o
  · exact jsGet_append_ne k k2 v h o

/-- The host-resolution stage performs no outbound call: its trace holds only
DNS attempts. -/
theorem resolveHost_no_outbound (env : Env) (url hostname : String)
    (u2 m : String) (h : List (String × String)) (b : Option String) (t : Bool) :
    Event.outbound u2 m h b t ∉ (resolveHost env url hostname).2.2 := by
  unfold resolveHost
  simp only [apply_ite (fun tr : String × Bool × List Event => tr.2.2)]
  split_ifs <;> simp

/-- Every event of the executor stage is the single outbound call carrying
exactly the resolved URL, upper-cased method, prepared headers and prepared
body. -/
theorem executeRequest_events (env : Env) (origUrl resolvedUrl methodU : String)
    (hdrs : List (String × String)) (rbody : Option String) (insecureSSL : Bool) :
    ∀ e ∈ (executeRequest env origUrl resolvedUrl methodU hdrs rbody insecureSSL).2,
      ∃ fl, e = Event.outbound resolvedUrl methodU hdrs rbody fl := by
  intro e he
  unfold executeRequest at he
  repeat' split at he
  all_goals simp_all

/-- A string starting with a nonempty literal is nonempty. -/
theorem networkErrorBody_ne_empty (msg : String) : "Network error: " ++ msg ≠ "" := by
  intro h
  have hlen := congrArg String.length h
  simp only [String.length_append] at hlen
  have h15 : ("Network error: " : String).length = 15 := by decide
  rw [h15] at hlen
  exact absurd hlen (by simp)

/-! ### Claims -/

/--
C1 (amended): the gateway ignores the `caCertificate` field entirely — the
result and the network trace of `forward` do not depend on it, so no
`InvalidCertificate` error is ever produced and a request carrying an invalid
certificate payload is processed exactly like one carrying none.
-/
theorem C1_caCertificate_ignored (env : Env) (req : Req) (c : Option String) :
    forward env { req with caCertificate := c } = forward env req := rfl

/-- Concrete environment used for the C1 counterexample. -/
def envC1 : Env :=
  { urlParse := fun s => if s = "https://example.test/ok" then some { hostname := "example.test" } else none
    dnsDual := fun _ => true, dnsV4 := fun _ => false, dnsFallback := fun _ => false
    dnsMappings := none, etcHosts := none, timedOut := false
    fetchResult := .resp { status := 200, statusText := "OK", headers := [], textBody := "hi"
                           parsedJson := none, url := "https://example.test/ok", redirected := false }
    nodeResult := .reqError "unused", bodyUnusableMsg := "Body is unusable" }

/-- C1 request: a valid GET whose `caCertificate` decodes to no certificate
marker (it is not even base64). -/
def reqC1 : Req :=
  { method := "GET", url := "https://example.test/ok", headers := [], body := none
    insecureSSL := false, caCertificate := some "!!!not-base64-at-all!!!" }

/--
C1 counterexample: for a request whose `caCertificate` is a syntactically
invalid base64 payload, `forward` does NOT return an InvalidCertificate
400-class error before any network attempt — it performs the outbound call
and returns the transport's 200 response.
-/
theorem C1_cex :
    (forward envC1 reqC1).1 =
      .normal { status := 200, statusText := "OK", headers := [], body := "hi"
                url := "https://example.test/ok", redirected := false } ∧
    Event.outbound "https://example.test/ok" "GET"
        [("User-Agent", "HTTP-Client-Server/1.0")] none false ∈ (forward envC1 reqC1).2 ∧
    (∀ msg, (forward envC1 reqC1).1 ≠ .badRequest msg) := by
  refine ⟨by decide, by decide, ?_⟩
  intro msg h
  rw [show (forward envC1 reqC1).1 =
      .normal { status := 200, statusText := "OK", headers := [], body := "hi"
                url := "https://example.test/ok", redirected := false } from by decide] at h
  exact GatewayResult.noConfusion h

/--
C7 (as stated): for every request description whose target URL does not parse
as an absolute URL, `forward` returns the 400-class invalid-target error
("URL is required" when the target is the empty string, "Invalid URL format"
otherwise) and the trace is empty — no hostname resolution and no outbound
call happen.  The hypothesis `req.method ≠ ""` reflects the data-model
invariant that a request description carries one of the enumerated methods.
-/
theorem C7_invalid_target (env : Env) (req : Req) (hm : req.method ≠ "")
    (hu : env.urlParse req.url = none) :
    forward env req =
      (.badRequest (if req.url = "" then "URL is required" else "Invalid URL format"), []) := by
  by_cases h0 : req.url = ""
  · simp [forward, h0]
  · simp [forward, h0, hm, hu]

/-- C7 witness environment: a URL-parse oracle that rejects everything. -/
def envC7 : Env :=
  { urlParse := fun _ => none
    dnsDual := fun _ => false, dnsV4 := fun _ => false, dnsFallback := fun _ => false
    dnsMappings := none, etcHosts := none, timedOut := false
    fetchResult := .thrownNonError, nodeResult := .reqError "unused"
    bodyUnusableMsg := "Body is unusable" }

/-- C7 witness request: a malformed target. -/
def reqC7 : Req :=
  { method := "GET", url := "ht!tp::/broken url", headers := [], body := none
    insecureSSL := false, caCertificate := none }

/-- C7 witness: the invalid-target theorem applied at a concrete malformed
URL. -/
theorem C7_invalid_target_witness :
    reqC7.method ≠ "" ∧ envC7.urlParse reqC7.url = none ∧
    forward envC7 reqC7 = (.badRequest "Invalid URL format", []) :=
  ⟨by decide, by decide, C7_invalid_target envC7 reqC7 (by decide) (by decide)⟩

/--
C2 (amended): a method outside the enumerated set (after upper-casing) makes
`forward` return the 400-class "Invalid HTTP method" error and no OUTBOUND
call is attempted — but, contrary to the original claim, hostname resolution
is not excluded: for a non-literal hostname the resolution stage runs before
method validation (see the counterexample).
-/
theorem C2_invalid_method (env : Env) (req : Req) (u : UrlParts)
    (hu : env.urlParse req.url = some u) (h0 : req.url ≠ "") (hm : req.method ≠ "")
    (hv : validMethods.contains (sToUpper req.method) = false) :
    (forward env req).1 = .badRequest "Invalid HTTP method" ∧
    ∀ u2 m h b t, Event.outbound u2 m h b t ∉ (forward env req).2 := by
  have hv2 : sToUpper req.method ∉ validMethods := by simpa using hv
  have hforward : forward env req =
      (.badRequest "Invalid HTTP method", (resolveHost env req.url u.hostname).2.2) := by
    simp [forward, h0, hm, hu, hv2]
  refine ⟨by rw [hforward], ?_⟩
  intro u2 m h b t
  rw [hforward]
  exact resolveHost_no_outbound env req.url u.hostname u2 m h b t

/-- C2 environment: DNS fails at every step, so all three resolution attempts
are visible in the trace. -/
def envC2 : Env :=
  { urlParse := fun s => if s = "http://example.test/" then some { hostname := "example.test" } else none
    dnsDual := fun _ => false, dnsV4 := fun _ => false, dnsFallback := fun _ => false
    dnsMappings := none, etcHosts := none, timedOut := false
    fetchResult := .thrownNonError, nodeResult := .reqError "unused"
    bodyUnusableMsg := "Body is unusable" }

/-- C2 request: an out-of-set method on a domain-name target. -/
def reqC2 : Req :=
  { method := "BREW", url := "http://example.test/", headers := [], body := none
    insecureSSL := false, caCertificate := none }

/--
C2 counterexample: with method "BREW" the gateway does return the
invalid-method error, but only AFTER attempting hostname resolution: the
trace contains the three DNS attempts, refuting the claim that no hostname
resolution is attempted before the error.
-/
theorem C2_cex :
    forward envC2 reqC2 =
      (.badRequest "Invalid HTTP method",
        [.dnsAttempt "example.test" 1, .dnsAttempt "example.test" 2,
         .dnsAttempt "example.test" 3]) ∧
    Event.dnsAttempt "example.test" 1 ∈ (forward envC2 reqC2).2 := by
  constructor <;> decide

/-- C2 witness: the amended theorem applied at the same concrete request. -/
theorem C2_invalid_method_witness :
    validMethods.contains (sToUpper reqC2.method) = false ∧
    (forward envC2 reqC2).1 = .badRequest "Invalid HTTP method" :=
  ⟨by decide,
    (C2_invalid_method envC2 reqC2 { hostname := "example.test" } (by decide) (by decide)
      (by decide) (by decide)).1⟩

/--
C3 (amended): when the 30-second deadline elapses on a call whose hostname
needed no custom substitution, the caller receives a status-0 response — with
statusText "Request Timeout" on the normal fetch path, but, contrary to the
original claim, the insecure-TLS https path rejects its promise with a plain
`Error("Request aborted")` whose name is not `AbortError`, so there the
timeout surfaces as statusText "Network Error" with body
"Network error: Request aborted".
-/
theorem C3_timeout (env : Env) (req : Req) (u : UrlParts)
    (hu : env.urlParse req.url = some u) (h0 : req.url ≠ "") (hm : req.method ≠ "")
    (hv : validMethods.contains (sToUpper req.method) = true)
    (ht : env.timedOut = true)
    (hres : (isIPv4Literal u.hostname || isIPv6Literal u.hostname) = true ∨
      env.dnsDual u.hostname = true) :
    (forward env req).1 =
      .normal (if req.insecureSSL && sStartsWith req.url "https://" then
          networkErrorResponse req.url "Request aborted"
        else timeoutResponse req.url) := by
  have hv2 : sToUpper req.method ∈ validMethods := by simpa using hv
  have hr1 : (resolveHost env req.url u.hostname).1 = req.url := by
    by_cases hip : (isIPv4Literal u.hostname || isIPv6Literal u.hostname) = true
    · simp [resolveHost, hip]
    · rcases hres with hd | hd
      · exact absurd hd hip
      · simp [resolveHost, hip, hd]
  simp only [forward, h0, hm, hu, if_neg, hv2, if_true]
  simp only [hr1]
  by_cases hab : (req.insecureSSL && sStartsWith req.url "https://") = true
  · have hneg : (!req.insecureSSL || !sStartsWith req.url "https://") = false := by
      rw [← Bool.not_and, hab]; rfl
    simp [executeRequest, hneg, hu, ht, hab, hv2]
  · have hpos : (!req.insecureSSL || !sStartsWith req.url "https://") = true := by
      rw [← Bool.not_and, Bool.eq_false_iff.mpr hab]; rfl
    simp [executeRequest, hpos, ht, hab, hv2]

/-- C3 environment: the deadline elapses before the transport completes. -/
def envC3 : Env :=
  { urlParse := fun s => if s = "https://example.test/slow" then some { hostname := "example.test" } else none
    dnsDual := fun _ => true, dnsV4 := fun _ => false, dnsFallback := fun _ => false
    dnsMappings := none, etcHosts := none, timedOut := true
    fetchResult := .thrownNonError, nodeResult := .reqError "unused"
    bodyUnusableMsg := "Body is unusable" }

/-- C3 request: an insecure-TLS GET to an https target. -/
def reqC3 : Req :=
  { method := "GET", url := "https://example.test/slow", headers := [], body := none
    insecureSSL := true, caCertificate := none }

/--
C3 counterexample: an insecureTls=true https call that hits the 30-second
deadline is answered with status 0 and statusText "Network Error" (body
"Network error: Request aborted"), not "Request Timeout" — refuting the
claim that a timeout never yields any other statusText.
-/
theorem C3_cex :
    (forward envC3 reqC3).1 =
      .normal { status := 0, statusText := "Network Error", headers := []
                body := "Network error: Request aborted", url := "https://example.test/slow"
                redirected := false } ∧
    "Network Error" ≠ "Request Timeout" := by
  constructor
  · decide
  · decide

/-- C3 witness request: the same timed-out call on the normal (not insecure)
path. -/
def reqC3w : Req :=
  { method := "GET", url := "https://example.test/slow", headers := [], body := none
    insecureSSL := false, caCertificate := none }

/-- C3 witness: the amended theorem applied at the normal-path call, where
the timeout does yield "Request Timeout". -/
theorem C3_timeout_witness :
    envC3.timedOut = true ∧
    (forward envC3 reqC3w).1 = .normal (timeoutResponse "https://example.test/slow") := by
  refine ⟨by decide, ?_⟩
  have h := C3_timeout envC3 reqC3w { hostname := "example.test" } (by decide) (by decide)
    (by decide) (by decide) (by decide) (Or.inr (by decide))
  simpa using h

/--
C4 (amended): for a transport response whose content type includes
`application/json`, the normalized body is the two-space pretty-printed JSON
body when `response.json()` succeeds (with the transport status passed
through) — but, contrary to the original claim, a JSON parse failure does
NOT fall back silently to the raw text: the body stream was already consumed
by `response.json()`, so the fallback `response.text()` raises the
body-unusable `TypeError` and the call surfaces as a status-0 "Network
Error" response.
-/
theorem C4_json_normalization (env : Env) (req : Req) (u : UrlParts)
    (r : TransportResponse)
    (hu : env.urlParse req.url = some u) (h0 : req.url ≠ "") (hm : req.method ≠ "")
    (hv : validMethods.contains (sToUpper req.method) = true)
    (hins : req.insecureSSL = false) (ht : env.timedOut = false)
    (hf : env.fetchResult = FetchResult.resp r)
    (hct : sIncludes ((headersGetCI r.headers "content-type").getD "")
      "application/json" = true) :
    (forward env req).1 =
      match r.parsedJson with
      | some j => .normal ⟨r.status, r.statusText, r.headers, jstr 0 j, r.url, r.redirected⟩
      | none => .normal (networkErrorResponse req.url env.bodyUnusableMsg) := by
  have hv2 : sToUpper req.method ∈ validMethods := by simpa using hv
  simp only [forward, h0, hm, hu, if_neg, hv2, if_true]
  simp only [executeRequest, hins, Bool.not_false, Bool.true_or, if_true, ht,
    Bool.false_eq_true, hf]
  simp only [normalizeTransport, hct, if_true]
  cases hj : r.parsedJson <;> simp [hj, hv2]

/-- C4 transport stub: a 200 response declaring JSON whose body does not
parse. -/
def rC4 : TransportResponse :=
  { status := 200, statusText := "OK", headers := [("content-type", "application/json")]
    textBody := "not json", parsedJson := none, url := "https://example.test/raw"
    redirected := false }

/-- C4 environment carrying the unparseable-JSON stub. -/
def envC4 : Env :=
  { urlParse := fun s => if s = "https://example.test/raw" then some { hostname := "example.test" } else none
    dnsDual := fun _ => true, dnsV4 := fun _ => false, dnsFallback := fun _ => false
    dnsMappings := none, etcHosts := none, timedOut := false
    fetchResult := .resp rC4, nodeResult := .reqError "unused"
    bodyUnusableMsg := "Body is unusable" }

/-- C4 request: a plain GET of the unparseable-JSON stub. -/
def reqC4 : Req :=
  { method := "GET", url := "https://example.test/raw", headers := [], body := none
    insecureSSL := false, caCertificate := none }

/--
C4 counterexample: against a 200 transport response with content type
`application/json` and body "not json", the gateway does NOT fall back to the
raw text with the transport status — it returns status 0 / "Network Error"
with the body-unusable diagnostic, because the failed `response.json()` has
already consumed the one-shot body stream.
-/
theorem C4_cex :
    envC4.fetchResult = FetchResult.resp rC4 ∧ rC4.status = 200 ∧
    rC4.textBody = "not json" ∧
    (forward envC4 reqC4).1 =
      .normal { status := 0, statusText := "Network Error", headers := []
                body := "Network error: Body is unusable"
                url := "https://example.test/raw", redirected := false } :=
  ⟨rfl, rfl, rfl, by decide⟩

/-- C4 witness transport stub: the 200 response with body `\x7b"a":1\x7d` and
content type `application/json` of the specification scenario. -/
def rC4w : TransportResponse :=
  { status := 200, statusText := "OK", headers := [("content-type", "application/json")]
    textBody := "\x7b\"a\":1\x7d", parsedJson := some (.obj (.cons "a" (.num 1) .nil))
    url := "https://example.test/ok", redirected := false }

/-- C4 witness environment for the pretty-printing scenario. -/
def envC4w : Env :=
  { urlParse := fun s => if s = "https://example.test/ok" then some { hostname := "example.test" } else none
    dnsDual := fun _ => true, dnsV4 := fun _ => false, dnsFallback := fun _ => false
    dnsMappings := none, etcHosts := none, timedOut := false
    fetchResult := .resp rC4w, nodeResult := .reqError "unused"
    bodyUnusableMsg := "Body is unusable" }

/-- C4 witness request: the specification scenario
`forward(GET https://example.test/ok)`. -/
def reqC4w : Req :=
  { method := "GET", url := "https://example.test/ok", headers := [], body := none
    insecureSSL := false, caCertificate := none }

/-- C4 witness: the amended theorem applied at the concrete scenario yields
status 200 with the two-space pretty-printed body. -/
theorem C4_json_normalization_witness :
    envC4w.fetchResult = FetchResult.resp rC4w ∧
    (forward envC4w reqC4w).1 =
      .normal { status := 200, statusText := "OK"
                headers := [("content-type", "application/json")]
                body := "\x7b\n  \"a\": 1\n\x7d", url := "https://example.test/ok"
                redirected := false } :=
  ⟨rfl,
    C4_json_normalization envC4w reqC4w { hostname := "example.test" } rC4w
      (by decide) (by decide) (by decide) (by decide) rfl rfl rfl (by decide)⟩

/-- The outbound body prepared for a GET or HEAD request is absent. -/
theorem buildHeadersBody_getHead (req : Req) (hostname : String) (cr : Bool)
    (hgh : (["GET", "HEAD"] : List String).contains (sToUpper req.method) = true) :
    (buildHeadersBody req hostname cr).2 = none := by
  have hgh2 : sToUpper req.method ∈ (["GET", "HEAD"] : List String) := by simpa using hgh
  simp [buildHeadersBody, hgh2]

/--
C8 (as stated): for every request whose method upper-cases to GET or HEAD,
any caller-supplied body is dropped — every outbound call in the trace
carries no body, whatever the input body was.
-/
theorem C8_get_head_no_body (env : Env) (req : Req)
    (hgh : (["GET", "HEAD"] : List String).contains (sToUpper req.method) = true) :
    ∀ u2 m h b t, Event.outbound u2 m h b t ∈ (forward env req).2 → b = none := by
  intro u2 m h b t hmem
  unfold forward at hmem
  split at hmem
  · simp at hmem
  · split at hmem
    · simp at hmem
    · split at hmem
      · simp at hmem
      · rename_i parsedUrl heq
        split at hmem
        · rcases List.mem_append.mp hmem with hl | hr
          · exact absurd hl (resolveHost_no_outbound env req.url parsedUrl.hostname u2 m h b t)
          · obtain ⟨fl, hfl⟩ := executeRequest_events env req.url
              (resolveHost env req.url parsedUrl.hostname).1 (sToUpper req.method)
              (buildHeadersBody req parsedUrl.hostname
                (resolveHost env req.url parsedUrl.hostname).2.1).1
              (buildHeadersBody req parsedUrl.hostname
                (resolveHost env req.url parsedUrl.hostname).2.1).2
              req.insecureSSL _ hr
            injection hfl with h1 h2 h3 h4 h5
            rw [h4]
            exact buildHeadersBody_getHead req parsedUrl.hostname _ hgh
        · exact absurd hmem
            (resolveHost_no_outbound env req.url parsedUrl.hostname u2 m h b t)

/-- C8 witness environment. -/
def envC8 : Env :=
  { urlParse := fun s => if s = "http://example.test/get" then some { hostname := "example.test" } else none
    dnsDual := fun _ => true, dnsV4 := fun _ => false, dnsFallback := fun _ => false
    dnsMappings := none, etcHosts := none, timedOut := false
    fetchResult := .resp { status := 200, statusText := "OK", headers := [], textBody := "ok"
                           parsedJson := none, url := "http://example.test/get", redirected := false }
    nodeResult := .reqError "unused", bodyUnusableMsg := "Body is unusable" }

/-- C8 witness request: a lower-case `get` carrying a nonempty string body
that must be dropped. -/
def reqC8 : Req :=
  { method := "get", url := "http://example.test/get", headers := []
    body := some (.str "should be dropped"), insecureSSL := false, caCertificate := none }

/-- C8 witness: at the concrete GET-with-body request, the outbound event in
the trace carries no body. -/
theorem C8_get_head_no_body_witness :
    (["GET", "HEAD"] : List String).contains (sToUpper reqC8.method) = true ∧
    Event.outbound "http://example.test/get" "GET"
        [("User-Agent", "HTTP-Client-Server/1.0")] none false ∈ (forward envC8 reqC8).2 ∧
    (∀ u2 m h b t, Event.outbound u2 m h b t ∈ (forward envC8 reqC8).2 → b = none) :=
  ⟨by decide, by decide, C8_get_head_no_body envC8 reqC8 (by decide)⟩

/-- With custom resolution on, the prepared outbound headers carry a `Host`
entry with the original hostname, whatever the body handling does. -/
theorem buildHeadersBody_Host (req : Req) (hostname : String) :
    jsGet (buildHeadersBody req hostname true).1 "Host" = some hostname := by
  have hself : ∀ o : List (String × String),
      jsGet (jsSet o "Host" hostname) "Host" = some hostname :=
    fun o => jsGet_jsSet_self o "Host" hostname
  have hcth : ∀ o : List (String × String),
      jsGet (jsSet (jsSet o "Host" hostname) "Content-Type" "application/json") "Host" =
        some hostname := fun o => by
    rw [jsGet_jsSet_ne _ "Content-Type" "Host" _ (by decide)]
    exact hself o
  unfold buildHeadersBody
  repeat' split
  all_goals
    simp_all [hself, hcth, apply_ite (fun o : List (String × String) => jsGet o "Host")]

/--
C5 (amended): when the hostname is no IP literal, every system resolution
step fails and the `DNS_MAPPINGS` entry for the hostname holds a nonempty
address, every outbound call is dialed at the URL obtained by replacing the
FIRST occurrence of the hostname as a raw substring of the target URL with
the mapped address — which coincides with substituting the hostname
component exactly when that first occurrence is the host position (the
counterexample shows a hostname whose first occurrence lies inside the
scheme) — and carries a `Host` header with the original hostname.
-/
theorem C5_static_mapping (env : Env) (req : Req) (u : UrlParts) (ip : String)
    (hu : env.urlParse req.url = some u) (h0 : req.url ≠ "") (hm : req.method ≠ "")
    (hip4 : (isIPv4Literal u.hostname || isIPv6Literal u.hostname) = false)
    (hd1 : env.dnsDual u.hostname = false) (hd2 : env.dnsV4 u.hostname = false)
    (hd3 : env.dnsFallback u.hostname = false)
    (hmap : getEnvDnsMapping env.dnsMappings u.hostname = some ip) (hipne : ip ≠ "") :
    ∀ u2 m h b t, Event.outbound u2 m h b t ∈ (forward env req).2 →
      u2 = sReplaceFirst req.url u.hostname ip ∧ jsGet h "Host" = some u.hostname := by
  have hbeq : (ip == "") = false := beq_eq_false_iff_ne.mpr hipne
  have hR : resolveHost env req.url u.hostname =
      (sReplaceFirst req.url u.hostname ip, true,
        [.dnsAttempt u.hostname 1, .dnsAttempt u.hostname 2, .dnsAttempt u.hostname 3]) := by
    simp [resolveHost, hip4, hd1, hd2, hd3, hmap, jsTruthyS, hbeq]
  intro u2 m h b t hmem
  by_cases hvm : validMethods.contains (sToUpper req.method) = true
  · have hv2 : sToUpper req.method ∈ validMethods := by simpa using hvm
    have htr : (forward env req).2 =
        [Event.dnsAttempt u.hostname 1, Event.dnsAttempt u.hostname 2,
          Event.dnsAttempt u.hostname 3] ++
        (executeRequest env req.url (sReplaceFirst req.url u.hostname ip)
          (sToUpper req.method) (buildHeadersBody req u.hostname true).1
          (buildHeadersBody req u.hostname true).2 req.insecureSSL).2 := by
      simp [forward, h0, hm, hu, hv2, hR]
    rw [htr] at hmem
    rcases List.mem_append.mp hmem with hl | hr
    · simp at hl
    · obtain ⟨fl, hfl⟩ := executeRequest_events env req.url
        (sReplaceFirst req.url u.hostname ip) (sToUpper req.method)
        (buildHeadersBody req u.hostname true).1
        (buildHeadersBody req u.hostname true).2 req.insecureSSL _ hr
      injection hfl with h1 h2 h3 h4 h5
      refine ⟨h1, ?_⟩
      rw [h3]
      exact buildHeadersBody_Host req u.hostname
  · have hv2 : sToUpper req.method ∉ validMethods := by simpa using hvm
    have htr : (forward env req).2 =
        [Event.dnsAttempt u.hostname 1, Event.dnsAttempt u.hostname 2,
          Event.dnsAttempt u.hostname 3] := by
      simp [forward, h0, hm, hu, hv2, hR]
    rw [htr] at hmem
    simp at hmem

/-- C5 environment: an unresolvable single-label hostname `tt` mapped by
`DNS_MAPPINGS` to `1.2.3.4`. -/
def envC5 : Env :=
  { urlParse := fun s => if s = "http://tt/x" then some { hostname := "tt" } else none
    dnsDual := fun _ => false, dnsV4 := fun _ => false, dnsFallback := fun _ => false
    dnsMappings := some "tt=1.2.3.4", etcHosts := none, timedOut := false
    fetchResult := .netError "TypeError" "fetch failed", nodeResult := .reqError "unused"
    bodyUnusableMsg := "Body is unusable" }

/-- C5 request: a GET to `http://tt/x`. -/
def reqC5 : Req :=
  { method := "GET", url := "http://tt/x", headers := [], body := none
    insecureSSL := false, caCertificate := none }

/--
C5 counterexample: for hostname `tt`, whose first occurrence in
`http://tt/x` lies inside the scheme `http`, the dialed URL is
`h1.2.3.4p://tt/x`: the scheme is destroyed and `//tt/` — the hostname — is
still present, so the dialed URL is NOT the target with the hostname
substituted by the mapped address.
-/
theorem C5_cex :
    (forward envC5 reqC5).2 =
      [.dnsAttempt "tt" 1, .dnsAttempt "tt" 2, .dnsAttempt "tt" 3,
       .outbound "h1.2.3.4p://tt/x" "GET"
         [("User-Agent", "HTTP-Client-Server/1.0"), ("Host", "tt")] none false] ∧
    sStartsWith "h1.2.3.4p://tt/x" "http://" = false ∧
    sStartsWith reqC5.url "http://" = true ∧
    sIncludes "h1.2.3.4p://tt/x" "//tt/" = true := by
  refine ⟨by decide, by decide, by decide, by decide⟩

/-- C5 witness environment: hostname `api.internal` mapped to `10.0.0.7`. -/
def envC5w : Env :=
  { urlParse := fun s => if s = "http://api.internal/v1" then some { hostname := "api.internal" } else none
    dnsDual := fun _ => false, dnsV4 := fun _ => false, dnsFallback := fun _ => false
    dnsMappings := some "api.internal=10.0.0.7", etcHosts := none, timedOut := false
    fetchResult := .resp { status := 200, statusText := "OK", headers := [], textBody := "ok"
                           parsedJson := none, url := "http://10.0.0.7/v1", redirected := false }
    nodeResult := .reqError "unused", bodyUnusableMsg := "Body is unusable" }

/-- C5 witness request. -/
def reqC5w : Req :=
  { method := "GET", url := "http://api.internal/v1", headers := [], body := none
    insecureSSL := false, caCertificate := none }

/-- C5 witness: at a hostname whose first occurrence is the host position,
the amended theorem gives the substituted dial URL and the `Host` header. -/
theorem C5_static_mapping_witness :
    Event.outbound "http://10.0.0.7/v1" "GET"
        [("User-Agent", "HTTP-Client-Server/1.0"), ("Host", "api.internal")] none false ∈
      (forward envC5w reqC5w).2 ∧
    ("http://10.0.0.7/v1" = sReplaceFirst reqC5w.url "api.internal" "10.0.0.7" ∧
      jsGet [("User-Agent", "HTTP-Client-Server/1.0"), ("Host", "api.internal")] "Host" =
        some "api.internal") :=
  ⟨by decide,
    C5_static_mapping envC5w reqC5w { hostname := "api.internal" } "10.0.0.7"
      (by decide) (by decide) (by decide) (by decide) (by decide) (by decide) (by decide)
      (by decide) (by decide) "http://10.0.0.7/v1" "GET"
      [("User-Agent", "HTTP-Client-Server/1.0"), ("Host", "api.internal")] none false
      (by decide)⟩

/-- A normalised transport response either passes the transport fields
through (with some body) or is the body-unusable network error. -/
theorem normalizeTransport_shape (env : Env) (origUrl : String) (r : TransportResponse) :
    normalizeTransport env origUrl r =
      .normal (networkErrorResponse origUrl env.bodyUnusableMsg) ∨
    ∃ b, normalizeTransport env origUrl r =
      .normal ⟨r.status, r.statusText, r.headers, b, r.url, r.redirected⟩ := by
  simp only [normalizeTransport]
  by_cases hct : sIncludes ((headersGetCI r.headers "content-type").getD "")
      "application/json" = true
  · rw [if_pos hct]
    cases hj : r.parsedJson with
    | none => left; rfl
    | some j => right; exact ⟨jstr 0 j, rfl⟩
  · rw [if_neg hct]
    right; exact ⟨r.textBody, rfl⟩

/-- Any status-0 normalized (or server-error) response produced by the
executor stage is one of the three local failure shapes, provided the fetch
transport itself never reports status 0. -/
theorem executeRequest_status_zero (env : Env) (origUrl resolvedUrl methodU : String)
    (hdrs : List (String × String)) (rbody : Option String) (insecureSSL : Bool)
    (hf : ∀ r, env.fetchResult = FetchResult.resp r → r.status ≠ 0)
    (nr : NormalizedResponse)
    (hres :
      (executeRequest env origUrl resolvedUrl methodU hdrs rbody insecureSSL).1 = .normal nr ∨
      (executeRequest env origUrl resolvedUrl methodU hdrs rbody insecureSSL).1 = .serverError nr)
    (h0 : nr.status = 0) :
    (nr.statusText = "Request Timeout" ∨ nr.statusText = "Network Error" ∨
      nr.statusText = "Server Error") ∧ nr.body ≠ "" := by
  unfold executeRequest at hres
  split at hres
  · split at hres
    · rcases hres with h | h
      · injection h with h2
        rw [← h2]
        refine ⟨Or.inl rfl, ?_⟩
        simp only [timeoutResponse]
        decide
      · exact GatewayResult.noConfusion h
    · split at hres
      · rename_i r heq
        rcases normalizeTransport_shape env origUrl r with hs | ⟨b2, hs⟩
        · rw [hs] at hres
          rcases hres with h | h
          · injection h with h2
            rw [← h2]
            exact ⟨Or.inr (Or.inl rfl), networkErrorBody_ne_empty _⟩
          · exact GatewayResult.noConfusion h
        · rw [hs] at hres
          rcases hres with h | h
          · injection h with h2
            rw [← h2] at h0
            exact absurd h0 (hf r heq)
          · exact GatewayResult.noConfusion h
      · split at hres
        · rcases hres with h | h
          · injection h with h2
            rw [← h2]
            refine ⟨Or.inl rfl, ?_⟩
            simp only [timeoutResponse]
            decide
          · exact GatewayResult.noConfusion h
        · rcases hres with h | h
          · injection h with h2
            rw [← h2]
            exact ⟨Or.inr (Or.inl rfl), networkErrorBody_ne_empty _⟩
          · exact GatewayResult.noConfusion h
      · rcases hres with h | h
        · exact GatewayResult.noConfusion h
        · injection h with h2
          rw [← h2]
          exact ⟨Or.inr (Or.inr rfl), by decide⟩
  · split at hres
    · rcases hres with h | h
      · injection h with h2
        rw [← h2]
        exact ⟨Or.inr (Or.inl rfl), networkErrorBody_ne_empty _⟩
      · exact GatewayResult.noConfusion h
    · split at hres
      · rcases hres with h | h
        · injection h with h2
          rw [← h2]
          exact ⟨Or.inr (Or.inl rfl), networkErrorBody_ne_empty _⟩
        · exact GatewayResult.noConfusion h
      · split at hres
        · rcases hres with h | h
          · injection h with h2
            rw [← h2]
            exact ⟨Or.inr (Or.inl rfl), networkErrorBody_ne_empty _⟩
          · exact GatewayResult.noConfusion h
        · rename_i r heq
          have hres2 :
              normalizeTransport env origUrl
                { status := if r.statusCode = 0 then 200 else r.statusCode
                  statusText := if r.statusMessage = "" then "OK" else r.statusMessage
                  headers := r.headers.map (fun p => (sToLower p.1, p.2))
                  textBody := r.data, parsedJson := r.parsedJson
                  url := resolvedUrl, redirected := false } = GatewayResult.normal nr ∨
              normalizeTransport env origUrl
                { status := if r.statusCode = 0 then 200 else r.statusCode
                  statusText := if r.statusMessage = "" then "OK" else r.statusMessage
                  headers := r.headers.map (fun p => (sToLower p.1, p.2))
                  textBody := r.data, parsedJson := r.parsedJson
                  url := resolvedUrl, redirected := false } = GatewayResult.serverError nr :=
            hres
          rcases normalizeTransport_shape env origUrl
              { status := if r.statusCode = 0 then 200 else r.statusCode
                statusText := if r.statusMessage = "" then "OK" else r.statusMessage
                headers := r.headers.map (fun p => (sToLower p.1, p.2))
                textBody := r.data, parsedJson := r.parsedJson
                url := resolvedUrl, redirected := false } with hs | ⟨b2, hs⟩
          · rw [hs] at hres2
            rcases hres2 with h | h
            · injection h with h2
              rw [← h2]
              exact ⟨Or.inr (Or.inl rfl), networkErrorBody_ne_empty _⟩
            · exact GatewayResult.noConfusion h
          · rw [hs] at hres2
            rcases hres2 with h | h
            · injection h with h2
              rw [← h2] at h0
              have h0b : (if r.statusCode = 0 then 200 else r.statusCode) = 0 := h0
              by_cases hsc : r.statusCode = 0
              · rw [if_pos hsc] at h0b
                exact absurd h0b (by decide)
              · rw [if_neg hsc] at h0b
                exact absurd h0b hsc
            · exact GatewayResult.noConfusion h

/--
C6 (as stated): whenever the fetch transport itself never reports a status-0
response (real HTTP statuses are three-digit), every normalized response the
gateway returns with status 0 carries a statusText in
\x7b"Request Timeout", "Network Error", "Server Error"\x7d and a nonempty
diagnostic body.
-/
theorem C6_status_zero_taxonomy (env : Env) (req : Req) (nr : NormalizedResponse)
    (hf : ∀ r, env.fetchResult = FetchResult.resp r → r.status ≠ 0)
    (hres : (forward env req).1 = .normal nr ∨ (forward env req).1 = .serverError nr)
    (h0 : nr.status = 0) :
    (nr.statusText = "Request Timeout" ∨ nr.statusText = "Network Error" ∨
      nr.statusText = "Server Error") ∧ nr.body ≠ "" := by
  unfold forward at hres
  split at hres
  · rcases hres with h | h <;> exact GatewayResult.noConfusion h
  · split at hres
    · rcases hres with h | h <;> exact GatewayResult.noConfusion h
    · split at hres
      · rcases hres with h | h <;> exact GatewayResult.noConfusion h
      · split at hres
        · exact executeRequest_status_zero env req.url _ _ _ _ _ hf nr hres h0
        · rcases hres with h | h <;> exact GatewayResult.noConfusion h

/-- C6 witness environment: a timed-out call. -/
def envC6 : Env :=
  { urlParse := fun s => if s = "http://example.test/z" then some { hostname := "example.test" } else none
    dnsDual := fun _ => true, dnsV4 := fun _ => false, dnsFallback := fun _ => false
    dnsMappings := none, etcHosts := none, timedOut := true
    fetchResult := .resp { status := 200, statusText := "OK", headers := [], textBody := "ok"
                           parsedJson := none, url := "http://example.test/z", redirected := false }
    nodeResult := .reqError "unused", bodyUnusableMsg := "Body is unusable" }

/-- C6 witness request. -/
def reqC6 : Req :=
  { method := "GET", url := "http://example.test/z", headers := [], body := none
    insecureSSL := false, caCertificate := none }

/-- C6 witness: the invariant applied at a concrete timed-out call. -/
theorem C6_status_zero_taxonomy_witness :
    (forward envC6 reqC6).1 = .normal (timeoutResponse "http://example.test/z") ∧
    (((timeoutResponse "http://example.test/z").statusText = "Request Timeout" ∨
      (timeoutResponse "http://example.test/z").statusText = "Network Error" ∨
      (timeoutResponse "http://example.test/z").statusText = "Server Error") ∧
      (timeoutResponse "http://example.test/z").body ≠ "") :=
  ⟨by decide,
    C6_status_zero_taxonomy envC6 reqC6 (timeoutResponse "http://example.test/z")
      (fun r hr => by
        rw [show envC6.fetchResult = FetchResult.resp
            { status := 200, statusText := "OK", headers := [], textBody := "ok"
              parsedJson := none, url := "http://example.test/z", redirected := false }
          from rfl] at hr
        injection hr with h2
        rw [← h2]
        decide)
      (Or.inl (by decide)) rfl⟩

/-- Exact characterisation of the prepared outbound headers and body: the
auto-set `Content-Type: application/json` is appended exactly when the body
is a truthy object on a non-GET/HEAD method and neither exact spelling
`Content-Type` / `content-type` is present and truthy among the merged
caller headers; in every other case the headers are exactly the merged
headers (plus the custom-resolution `Host` entry), and the body is the
string body, the compact JSON serialisation, or absent accordingly. -/
theorem buildHeadersBody_spec (req : Req) (hostname : String) (cr : Bool) :
    buildHeadersBody req hostname cr =
      (let rh0 := jsMerge [("User-Agent", "HTTP-Client-Server/1.0")] req.headers
       let rh1 := if cr = true then jsSet rh0 "Host" hostname else rh0
       match req.body, bodyTruthy req.body &&
           !((["GET", "HEAD"] : List String).contains (sToUpper req.method)) with
       | some (BodyVal.str s), true => (rh1, some s)
       | some (BodyVal.obj j), true =>
         (if !jsTruthyS (jsGet rh0 "Content-Type") && !jsTruthyS (jsGet rh0 "content-type")
          then jsSet rh1 "Content-Type" "application/json" else rh1, some (jstrC j))
       | _, _ => (rh1, none)) := by
  have hr1 : ∀ kk : String, ("Host" : String) ≠ kk →
      jsGet (if cr = true then
          jsSet (jsMerge [("User-Agent", "HTTP-Client-Server/1.0")] req.headers) "Host" hostname
        else jsMerge [("User-Agent", "HTTP-Client-Server/1.0")] req.headers) kk =
      jsGet (jsMerge [("User-Agent", "HTTP-Client-Server/1.0")] req.headers) kk := by
    intro kk hkk
    cases cr with
    | false => rfl
    | true => exact jsGet_jsSet_ne _ "Host" kk hostname hkk
  unfold buildHeadersBody
  cases hb : req.body with
  | none => simp [bodyTruthy]
  | some bv =>
    cases bv with
    | str s =>
      cases hcond : (bodyTruthy (some (BodyVal.str s)) &&
          !((["GET", "HEAD"] : List String).contains (sToUpper req.method)))
      · simp [hb, hcond]
      · simp [hb, hcond]
    | obj j =>
      cases hcond : (bodyTruthy (some (BodyVal.obj j)) &&
          !((["GET", "HEAD"] : List String).contains (sToUpper req.method)))
      · simp [hb, hcond]
      · simp [hb, hcond]
        rw [hr1 "Content-Type" (by decide), hr1 "content-type" (by decide)]
    | prim t =>
      cases hcond : (bodyTruthy (some (BodyVal.prim t)) &&
          !((["GET", "HEAD"] : List String).contains (sToUpper req.method)))
      · simp [hb, hcond]
      · simp [hb, hcond]

/--
C9 (amended): the outbound headers and body are characterised exactly — the
auto-derived `Content-Type: application/json` is appended exactly when a
truthy structured (object) body is present on a non-GET/HEAD method and
neither of the two EXACT spellings `Content-Type` and `content-type` is
already present and truthy among the merged caller headers; in every other
case (an exact-spelling content-type header present and truthy, a string or
primitive or absent body, or a GET/HEAD method) no auto-set happens and the
outbound headers are exactly the merged headers plus at most the
custom-resolution `Host` entry.  Contrary to the original claim, other
casings of the header name are not recognised (see the counterexample); the
concrete specification scenario (POST with object body and empty headers)
does go out with `Content-Type: application/json` and the JSON-stringified
body (see the witness).
-/
theorem C9_auto_content_type (env : Env) (req : Req) (u : UrlParts)
    (hu : env.urlParse req.url = some u) (h0 : req.url ≠ "") (hm : req.method ≠ "") :
    ∀ u2 m h b t, Event.outbound u2 m h b t ∈ (forward env req).2 →
      (h, b) =
        (let rh0 := jsMerge [("User-Agent", "HTTP-Client-Server/1.0")] req.headers
         let rh1 := if (resolveHost env req.url u.hostname).2.1 = true
           then jsSet rh0 "Host" u.hostname else rh0
         match req.body, bodyTruthy req.body &&
             !((["GET", "HEAD"] : List String).contains (sToUpper req.method)) with
         | some (BodyVal.str s), true => (rh1, some s)
         | some (BodyVal.obj j), true =>
           (if !jsTruthyS (jsGet rh0 "Content-Type") && !jsTruthyS (jsGet rh0 "content-type")
            then jsSet rh1 "Content-Type" "application/json" else rh1, some (jstrC j))
         | _, _ => (rh1, none)) := by
  intro u2 m h b t hmem
  by_cases hvm : validMethods.contains (sToUpper req.method) = true
  · have hv2 : sToUpper req.method ∈ validMethods := by simpa using hvm
    have htr : (forward env req).2 =
        (resolveHost env req.url u.hostname).2.2 ++
        (executeRequest env req.url (resolveHost env req.url u.hostname).1
          (sToUpper req.method)
          (buildHeadersBody req u.hostname (resolveHost env req.url u.hostname).2.1).1
          (buildHeadersBody req u.hostname (resolveHost env req.url u.hostname).2.1).2
          req.insecureSSL).2 := by
      simp [forward, h0, hm, hu, hv2]
    rw [htr] at hmem
    rcases List.mem_append.mp hmem with hl | hr
    · exact absurd hl (resolveHost_no_outbound env req.url u.hostname u2 m h b t)
    · obtain ⟨fl, hfl⟩ := executeRequest_events env req.url
        (resolveHost env req.url u.hostname).1 (sToUpper req.method)
        (buildHeadersBody req u.hostname (resolveHost env req.url u.hostname).2.1).1
        (buildHeadersBody req u.hostname (resolveHost env req.url u.hostname).2.1).2
        req.insecureSSL _ hr
      injection hfl with h1 h2 h3 h4 h5
      rw [h3, h4, Prod.mk.eta]
      exact buildHeadersBody_spec req u.hostname (resolveHost env req.url u.hostname).2.1
  · have hv2 : sToUpper req.method ∉ validMethods := by simpa using hvm
    have htr : (forward env req).2 = (resolveHost env req.url u.hostname).2.2 := by
      simp [forward, h0, hm, hu, hv2]
    rw [htr] at hmem
    exact absurd hmem (resolveHost_no_outbound env req.url u.hostname u2 m h b t)

/-- C9 environment. -/
def envC9 : Env :=
  { urlParse := fun s => if s = "http://example.test/e" then some { hostname := "example.test" } else none
    dnsDual := fun _ => true, dnsV4 := fun _ => false, dnsFallback := fun _ => false
    dnsMappings := none, etcHosts := none, timedOut := false
    fetchResult := .resp { status := 200, statusText := "OK", headers := [], textBody := "ok"
                           parsedJson := none, url := "http://example.test/e", redirected := false }
    nodeResult := .reqError "unused", bodyUnusableMsg := "Body is unusable" }

/-- C9 request: a POST with object body whose caller headers carry a
content-type under the casing `CONTENT-TYPE`. -/
def reqC9 : Req :=
  { method := "POST", url := "http://example.test/e"
    headers := [("CONTENT-TYPE", "text/plain")]
    body := some (.obj (.obj (.cons "x" (.num 1) .nil))), insecureSSL := false
    caCertificate := none }

/--
C9 counterexample: the caller supplied a content-type header under the
casing `CONTENT-TYPE`, yet the gateway still auto-sets
`Content-Type: application/json` on the outbound call — refuting the claim
that the auto-derivation happens only when no content-type header was
supplied under ANY casing of the header name.
-/
theorem C9_cex :
    (forward envC9 reqC9).2 =
      [.dnsAttempt "example.test" 1,
       .outbound "http://example.test/e" "POST"
         [("User-Agent", "HTTP-Client-Server/1.0"), ("CONTENT-TYPE", "text/plain"),
          ("Content-Type", "application/json")] (some "\x7b\"x\":1\x7d") false] ∧
    jsGet reqC9.headers "CONTENT-TYPE" = some "text/plain" ∧
    sToLower "CONTENT-TYPE" = "content-type" :=
  ⟨by decide, by decide, by decide⟩

/-- C9 witness environment. -/
def envC9w : Env :=
  { urlParse := fun s => if s = "http://example.test/echo" then some { hostname := "example.test" } else none
    dnsDual := fun _ => true, dnsV4 := fun _ => false, dnsFallback := fun _ => false
    dnsMappings := none, etcHosts := none, timedOut := false
    fetchResult := .resp { status := 200, statusText := "OK", headers := [], textBody := "ok"
                           parsedJson := none, url := "http://example.test/echo", redirected := false }
    nodeResult := .reqError "unused", bodyUnusableMsg := "Body is unusable" }

/-- C9 witness request: the specification scenario
`forward(POST http://example.test/echo, headers \x7b\x7d, body \x7b"x":1\x7d)`. -/
def reqC9w : Req :=
  { method := "POST", url := "http://example.test/echo", headers := []
    body := some (.obj (.obj (.cons "x" (.num 1) .nil))), insecureSSL := false
    caCertificate := none }

/-- C9 witness: the amended characterisation applied at the specification
scenario — the outbound call carries `Content-Type: application/json` and
the JSON-stringified body, and those observed headers and body equal the
characterising expression evaluated at this request. -/
theorem C9_auto_content_type_witness :
    Event.outbound "http://example.test/echo" "POST"
        [("User-Agent", "HTTP-Client-Server/1.0"), ("Content-Type", "application/json")]
        (some "\x7b\"x\":1\x7d") false ∈ (forward envC9w reqC9w).2 ∧
    (([("User-Agent", "HTTP-Client-Server/1.0"), ("Content-Type", "application/json")],
        some "\x7b\"x\":1\x7d") :
      List (String × String) × Option String) =
      (let rh0 := jsMerge [("User-Agent", "HTTP-Client-Server/1.0")] reqC9w.headers
       let rh1 := if (resolveHost envC9w reqC9w.url "example.test").2.1 = true
         then jsSet rh0 "Host" "example.test" else rh0
       match reqC9w.body, bodyTruthy reqC9w.body &&
           !((["GET", "HEAD"] : List String).contains (sToUpper reqC9w.method)) with
       | some (BodyVal.str s), true => (rh1, some s)
       | some (BodyVal.obj j), true =>
         (if !jsTruthyS (jsGet rh0 "Content-Type") && !jsTruthyS (jsGet rh0 "content-type")
          then jsSet rh1 "Content-Type" "application/json" else rh1, some (jstrC j))
       | _, _ => (rh1, none)) :=
  ⟨by decide,
    C9_auto_content_type envC9w reqC9w { hostname := "example.test" }
      (by decide) (by decide) (by decide)
      "http://example.test/echo" "POST"
      [("User-Agent", "HTTP-Client-Server/1.0"), ("Content-Type", "application/json")]
      (some "\x7b\"x\":1\x7d") false (by decide)⟩

/--
C10 (amended): for an insecureTls=true call whose DIALED URL (after any
static-mapping substitution) still starts with `https://`, every transport
response received (status ≠ 0) is returned with redirected = false and with
finalUrl equal to the dialed URL: the insecure node client path does not
follow redirects.  Contrary to the original claim this cannot be conditioned
on the TARGET being https: a static-mapping substitution can rewrite the
scheme and push an https target onto the redirect-following fetch path (see
the counterexample).
-/
theorem C10_insecure_no_redirect (env : Env) (req : Req) (u pu : UrlParts) (r : NodeRes)
    (hu : env.urlParse req.url = some u) (h0 : req.url ≠ "") (hm : req.method ≠ "")
    (hv : validMethods.contains (sToUpper req.method) = true)
    (hins : req.insecureSSL = true)
    (hdial : sStartsWith (resolveHost env req.url u.hostname).1 "https://" = true)
    (hpu : env.urlParse (resolveHost env req.url u.hostname).1 = some pu)
    (ht : env.timedOut = false) (hn : env.nodeResult = NodeResult.res r) :
    ∀ nr, (forward env req).1 = .normal nr → nr.status ≠ 0 →
      nr.redirected = false ∧ nr.url = (resolveHost env req.url u.hostname).1 := by
  intro nr hres hnz
  have hv2 : sToUpper req.method ∈ validMethods := by simpa using hv
  have hneg : (!req.insecureSSL ||
      !sStartsWith (resolveHost env req.url u.hostname).1 "https://") = false := by
    rw [hins, hdial]; rfl
  have hfw : (forward env req).1 =
      (executeRequest env req.url (resolveHost env req.url u.hostname).1
        (sToUpper req.method)
        (buildHeadersBody req u.hostname (resolveHost env req.url u.hostname).2.1).1
        (buildHeadersBody req u.hostname (resolveHost env req.url u.hostname).2.1).2
        req.insecureSSL).1 := by
    simp [forward, h0, hm, hu, hv2]
  have hex : (executeRequest env req.url (resolveHost env req.url u.hostname).1
      (sToUpper req.method)
      (buildHeadersBody req u.hostname (resolveHost env req.url u.hostname).2.1).1
      (buildHeadersBody req u.hostname (resolveHost env req.url u.hostname).2.1).2
      req.insecureSSL).1 =
      normalizeTransport env req.url
        { status := if r.statusCode = 0 then 200 else r.statusCode
          statusText := if r.statusMessage = "" then "OK" else r.statusMessage
          headers := r.headers.map (fun p => (sToLower p.1, p.2))
          textBody := r.data, parsedJson := r.parsedJson
          url := (resolveHost env req.url u.hostname).1, redirected := false } := by
    simp [executeRequest, hneg, hpu, ht, hn]
  rw [hfw, hex] at hres
  rcases normalizeTransport_shape env req.url
      { status := if r.statusCode = 0 then 200 else r.statusCode
        statusText := if r.statusMessage = "" then "OK" else r.statusMessage
        headers := r.headers.map (fun p => (sToLower p.1, p.2))
        textBody := r.data, parsedJson := r.parsedJson
        url := (resolveHost env req.url u.hostname).1, redirected := false }
    with hs | ⟨b2, hs⟩
  · rw [hs] at hres
    injection hres with h2
    rw [← h2] at hnz
    exact absurd rfl hnz
  · rw [hs] at hres
    injection hres with h2
    rw [← h2]
    exact ⟨rfl, rfl⟩

/-- C10 environment: hostname `s` is unresolvable and `DNS_MAPPINGS` maps it
to `://evil.com/a`, so the first-occurrence substitution inside
`https://s/` produces the plain-http URL `http://evil.com/a://s/`; the fetch
transport reaches a server that redirects. -/
def envC10 : Env :=
  { urlParse := fun s => if s = "https://s/" then some { hostname := "s" } else none
    dnsDual := fun _ => false, dnsV4 := fun _ => false, dnsFallback := fun _ => false
    dnsMappings := some "s=://evil.com/a", etcHosts := none, timedOut := false
    fetchResult := .resp { status := 200, statusText := "OK"
                           headers := [("content-type", "text/html")]
                           textBody := "redirect target page"
                           parsedJson := none, url := "http://evil.com/final"
                           redirected := true }
    nodeResult := .reqError "unused", bodyUnusableMsg := "Body is unusable" }

/-- C10 request: an insecureTls=true GET to the https target `https://s/`. -/
def reqC10 : Req :=
  { method := "GET", url := "https://s/", headers := [], body := none
    insecureSSL := true, caCertificate := none }

/--
C10 counterexample: an insecureTls=true call to the https target
`https://s/` whose static-mapping substitution rewrites the dialed URL to
`http://evil.com/a://s/` runs on the ordinary fetch path, receives a
transport response, and is returned with redirected = true and a final URL
differing from the dialed one — refuting the claim that every insecure https
call yields redirected = false with the dialed URL.
-/
theorem C10_cex :
    reqC10.insecureSSL = true ∧ sStartsWith reqC10.url "https://" = true ∧
    (forward envC10 reqC10).1 =
      .normal { status := 200, statusText := "OK"
                headers := [("content-type", "text/html")]
                body := "redirect target page", url := "http://evil.com/final"
                redirected := true } ∧
    Event.outbound "http://evil.com/a://s/" "GET"
        [("User-Agent", "HTTP-Client-Server/1.0"), ("Host", "s")] none false ∈
      (forward envC10 reqC10).2 :=
  ⟨by decide, by decide, by decide, by decide⟩

/-- C10 witness environment: a direct insecure https call answered by the
node client with a 301 redirect. -/
def envC10w : Env :=
  { urlParse := fun s => if s = "https://example.test/x" then some { hostname := "example.test" } else none
    dnsDual := fun _ => true, dnsV4 := fun _ => false, dnsFallback := fun _ => false
    dnsMappings := none, etcHosts := none, timedOut := false
    fetchResult := .thrownNonError
    nodeResult := .res { statusCode := 301, statusMessage := "Moved Permanently"
                         headers := [("Location", "https://elsewhere.test/")]
                         data := "moved", parsedJson := none }
    bodyUnusableMsg := "Body is unusable" }

/-- C10 witness request. -/
def reqC10w : Req :=
  { method := "GET", url := "https://example.test/x", headers := [], body := none
    insecureSSL := true, caCertificate := none }

/-- C10 witness: the amended theorem applied at the concrete insecure https
call — the 301 redirect is returned as-is with redirected = false and the
dialed URL. -/
theorem C10_insecure_no_redirect_witness :
    (forward envC10w reqC10w).1 =
      .normal { status := 301, statusText := "Moved Permanently"
                headers := [("location", "https://elsewhere.test/")]
                body := "moved", url := "https://example.test/x", redirected := false } ∧
    (({ status := 301, statusText := "Moved Permanently"
        headers := [("location", "https://elsewhere.test/")]
        body := "moved", url := "https://example.test/x",
        redirected := false } : NormalizedResponse).redirected = false ∧
      ({ status := 301, statusText := "Moved Permanently"
         headers := [("location", "https://elsewhere.test/")]
         body := "moved", url := "https://example.test/x",
         redirected := false } : NormalizedResponse).url =
        (resolveHost envC10w "https://example.test/x" "example.test").1) :=
  ⟨by decide,
    C10_insecure_no_redirect envC10w reqC10w { hostname := "example.test" }
      { hostname := "example.test" }
      { statusCode := 301, statusMessage := "Moved Permanently"
        headers := [("Location", "https://elsewhere.test/")], data := "moved"
        parsedJson := none }
      (by decide) (by decide) (by decide) (by decide) rfl (by decide) (by decide) rfl rfl
      { status := 301, statusText := "Moved Permanently"
        headers := [("location", "https://elsewhere.test/")]
        body := "moved", url := "https://example.test/x", redirected := false }
      (by decide) (by decide)⟩

end Aetherium
